import Mathlib

/-!
Verification development for the news-authenticity-checker repository.

Part 1 models the extraction pipeline of `news_scraper.py` (`scrape` and its
helpers): category slugs, the fallback category list, the per-category article
loop with its seen-set, slug filter, time-window filter and length filter.
Browser interaction is modelled by collaborator functions supplied as input:
`catLinks` (navigating to a category page and collecting article links; `none`
models a navigation failure, handled by `continue`) and `fetch` (navigating to
an article page and extracting publish time and body; `none` models an
exception inside the `try` block).  Timestamps are modelled as integers (UTC
seconds); the output additionally records the trace of article URLs navigated
to, which is observable behaviour of the program.

Part 2 models the `/embed` endpoint of `server.py` together with its
append-only JSONL embedding cache.
-/

def BASE_URL : String := "https://timesofindia.indiatimes.com"

def DEFAULT_VALID_CATEGORIES : List String :=
  ["india", "world", "business", "sports", "technology", "tech",
   "health-fitness", "science", "environment", "education"]

/-- Insertion into a sorted list of strings, used to model Python `sorted`. -/
def insertSorted (s : String) : List String → List String
  | [] => [s]
  | t :: ts => if t < s then t :: insertSorted s ts else s :: t :: ts

/-- Model of Python `sorted` on a list of strings (ascending insertion sort). -/
def sortStrings : List String → List String
  | [] => []
  | s :: ss => insertSorted s (sortStrings ss)

/-- `fallback_categories` from `news_scraper.py`: if nav parsing yields
nothing, construct category URLs directly from known section slugs.  The
Python argument is a set; we model it as a list and take `dedup` for the set
semantics.  `sorted(allowed) if allowed else sorted(DEFAULT_VALID_CATEGORIES)`. -/
def fallback_categories (allowed : List String) : List String :=
  let slugs := if allowed.dedup.isEmpty then sortStrings DEFAULT_VALID_CATEGORIES.dedup
               else sortStrings allowed.dedup
  slugs.map (fun s => BASE_URL ++ "/" ++ s)

/-- Replace every occurrence of a nonempty pattern in a char list (the char
level of Python `str.replace`; all uses have a nonempty pattern).  Structural
recursion on a fuel argument so that the kernel can evaluate it; each step
consumes at least one list element, so fuel equal to the list length never
runs out. -/
def replaceListAux (pat rep : List Char) : Nat → List Char → List Char
  | _, [] => []
  | 0, l => l
  | fuel + 1, c :: rest =>
    if pat.length ≠ 0 ∧ (c :: rest).take pat.length = pat then
      rep ++ replaceListAux pat rep fuel (rest.drop (pat.length - 1))
    else
      c :: replaceListAux pat rep fuel rest

/-- Replace every occurrence of a nonempty pattern in a char list. -/
def replaceList (pat rep l : List Char) : List Char :=
  replaceListAux pat rep l.length l

/-- Python `s.replace(pat, rep)` for nonempty `pat`. -/
def pyReplace (s pat rep : String) : String :=
  String.mk (replaceList pat.toList rep.toList s.toList)

/-- Python `s.startswith(p)`. -/
def pyStartsWith (s p : String) : Bool :=
  s.toList.take p.toList.length == p.toList

/-- Python `s.lower()` (ASCII case folding, as `str.lower` on these slugs). -/
def pyLower (s : String) : String :=
  String.mk (s.toList.map Char.toLower)

/-- Python `s.strip("/")`: remove leading and trailing slashes. -/
def stripSlashes (s : String) : String :=
  String.mk (((s.toList.dropWhile (· = '/')).reverse.dropWhile (· = '/')).reverse)

/-- `_category_slug_from_url`: `url.replace(BASE_URL, "").strip("/").split("/")[0].lower()`,
with `"unknown"` when empty. -/
def categorySlugFromUrl (categoryUrl : String) : String :=
  let t := pyReplace categoryUrl BASE_URL ""
  let first := String.mk ((stripSlashes t).toList.takeWhile (· ≠ '/'))
  let slug := pyLower first
  if slug = "" then "unknown" else slug

/-- `normalize_category`: map site section slugs into ML-friendly buckets. -/
def normalizeCategory (slug : String) : String :=
  let s := pyLower slug
  if s = "world" then "world"
  else if s = "business" then "business"
  else if s = "sports" then "sports"
  else if s = "technology" ∨ s = "tech" ∨ s = "science" then "technology"
  else if s = "health" ∨ s = "health-fitness" then "health"
  else if s = "india" ∨ s = "politics" then "politics"
  else if s = "" then "unknown"
  else s

/-- What navigating to an article page yields: publish time (from JSON-LD or
the regex fallback; `none` when unresolvable) and extracted body text. -/
structure PageData where
  publishedAt : Option Int
  content : String
deriving DecidableEq, Repr

/-- One CSV row written by the pipeline: `["timesofindia", category, url,
_safe_iso(dt), content]`; the timestamp is kept as the integer it came from. -/
structure Row where
  source : String
  category : String
  url : String
  published : Int
  content : String
deriving DecidableEq, Repr

/-- The external collaborators of one scrape run: navigating to a category page
and collecting its article links, and navigating to an article page. -/
structure World where
  catLinks : String → Option (List String)
  fetch : String → Option PageData

/-- Scrape configuration: cutoff timestamp, per-category cap, length floor. -/
structure ScrapeCfg where
  cutoff : Int
  maxPerCategory : Nat
  minChars : Nat

/-- Result of (part of) a run: emitted rows in order, the seen-set afterwards,
and the trace of article URLs navigated to. -/
structure StepOut where
  rows : List Row
  seen : List String
  fetched : List String
deriving Repr

/-- The body of the `try` block of the article loop in `scrape`: navigate to
the article (`none`: an exception, `continue`), then drop the record when the
publish time is unresolvable, older than the cutoff, or the body is shorter
than `min_chars`; otherwise the written row.  `none` in all dropped cases. -/
def fetchOutcome (cfg : ScrapeCfg) (fetch : String → Option PageData)
    (cat url : String) : Option Row :=
  match fetch url with
  | none => none
  | some pd =>
    match pd.publishedAt with
    | none => none
    | some t =>
      if t < cfg.cutoff then none
      else if pd.content.length < cfg.minChars then none
      else some ⟨"timesofindia", cat, url, t, pd.content⟩

/-- The inner article loop of `scrape` for one category: for each link, stop at
the per-category cap, skip seen URLs (no fetch), skip URLs outside the
category slug (no fetch), navigate (logging the URL); if the article is
dropped by `fetchOutcome` just continue, otherwise emit the row, mark the URL
seen and bump the per-category counter. -/
def processLinks (cfg : ScrapeCfg) (fetch : String → Option PageData)
    (slug cat : String) : List String → List String → Nat → StepOut
  | [], seen, _ => ⟨[], seen, []⟩
  | url :: rest, seen, count =>
    if cfg.maxPerCategory ≤ count then ⟨[], seen, []⟩
    else if url ∈ seen then processLinks cfg fetch slug cat rest seen count
    else if slug ≠ "" ∧ ¬ pyStartsWith (pyReplace url BASE_URL "") ("/" ++ slug ++ "/") then
      processLinks cfg fetch slug cat rest seen count
    else
      match fetchOutcome cfg fetch cat url with
      | none =>
        let o := processLinks cfg fetch slug cat rest seen count
        ⟨o.rows, o.seen, url :: o.fetched⟩
      | some row =>
        let o := processLinks cfg fetch slug cat rest (url :: seen) (count + 1)
        ⟨row :: o.rows, o.seen, url :: o.fetched⟩

/-- The outer category loop of `scrape`: derive slug and bucket, navigate to
the category page (failure: continue), run the article loop threading the
global seen-set. -/
def scrapeCats (cfg : ScrapeCfg) (world : World) : List String → List String → StepOut
  | [], seen => ⟨[], seen, []⟩
  | curl :: rest, seen =>
    let slug := categorySlugFromUrl curl
    let cat := normalizeCategory slug
    match world.catLinks curl with
    | none => scrapeCats cfg world rest seen
    | some links =>
      let o1 := processLinks cfg world.fetch slug cat links seen 0
      let o2 := scrapeCats cfg world rest o1.seen
      ⟨o1.rows ++ o2.rows, o2.seen, o1.fetched ++ o2.fetched⟩

/-- `scrape` from `news_scraper.py` with discovery results supplied as input:
fall back to `fallback_categories` when discovery yielded nothing, then run
the category loop with an empty seen-set. -/
def scrape (cfg : ScrapeCfg) (world : World)
    (discovered : List String) (allowed : List String) : StepOut :=
  let categories := if discovered.isEmpty then fallback_categories allowed else discovered
  scrapeCats cfg world categories []

/-- The cutoff computation at the top of `scrape`: `now - hours` when
`window_hours` is given, else `now - days` when `window_days` is given, else
`now - 7 days` (seconds). -/
def computeCutoff (now : Int) (windowHours windowDays : Option Nat) : Int :=
  match windowHours with
  | some h => now - 3600 * (h : Int)
  | none =>
    match windowDays with
    | some d => now - 86400 * (d : Int)
    | none => now - 86400 * 7

/-- A whole `scrape` call: cutoff derived from `now` and the window flags. -/
def scrapeRun (now : Int) (windowHours windowDays : Option Nat)
    (maxPerCategory minChars : Nat) (world : World)
    (discovered : List String) (allowed : List String) : StepOut :=
  scrape ⟨computeCutoff now windowHours windowDays, maxPerCategory, minChars⟩
    world discovered allowed

/-! ## Pipeline lemmas -/

/-- An emitted row records the fetched URL, satisfies the cutoff and length
filters, and its timestamp was resolved from the fetched page. -/
theorem fetchOutcome_spec (cfg : ScrapeCfg) (fetch : String → Option PageData)
    (cat url : String) (row : Row) (h : fetchOutcome cfg fetch cat url = some row) :
    row.url = url ∧ cfg.cutoff ≤ row.published ∧ cfg.minChars ≤ row.content.length ∧
    ∃ pd, fetch url = some pd ∧ pd.publishedAt = some row.published := by
  unfold fetchOutcome at h
  split at h
  · cases h
  next pd hf =>
    split at h
    · cases h
    next t hp =>
      split at h
      · cases h
      next hcut =>
        split at h
        · cases h
        next hlen =>
          cases h
          exact ⟨rfl, Int.not_lt.mp hcut, Nat.not_lt.mp hlen, pd, hf, hp⟩

/-- Unfolding equation: per-category cap reached. -/
theorem processLinks_cons_stop (cfg : ScrapeCfg) (fetch : String → Option PageData)
    (slug cat url : String) (rest seen : List String) (count : Nat)
    (hmax : cfg.maxPerCategory ≤ count) :
    processLinks cfg fetch slug cat (url :: rest) seen count = ⟨[], seen, []⟩ := by
  simp only [processLinks]
  rw [if_pos hmax]

/-- Unfolding equation: URL already seen. -/
theorem processLinks_cons_seen (cfg : ScrapeCfg) (fetch : String → Option PageData)
    (slug cat url : String) (rest seen : List String) (count : Nat)
    (hmax : ¬ cfg.maxPerCategory ≤ count) (hseen : url ∈ seen) :
    processLinks cfg fetch slug cat (url :: rest) seen count
      = processLinks cfg fetch slug cat rest seen count := by
  simp only [processLinks]
  rw [if_neg hmax, if_pos hseen]

/-- Unfolding equation: URL outside the category slug. -/
theorem processLinks_cons_slug (cfg : ScrapeCfg) (fetch : String → Option PageData)
    (slug cat url : String) (rest seen : List String) (count : Nat)
    (hmax : ¬ cfg.maxPerCategory ≤ count) (hseen : url ∉ seen)
    (hslug : slug ≠ "" ∧ ¬ pyStartsWith (pyReplace url BASE_URL "") ("/" ++ slug ++ "/")) :
    processLinks cfg fetch slug cat (url :: rest) seen count
      = processLinks cfg fetch slug cat rest seen count := by
  simp only [processLinks]
  rw [if_neg hmax, if_neg hseen, if_pos hslug]

/-- Unfolding equation: the article was navigated to but dropped. -/
theorem processLinks_cons_drop (cfg : ScrapeCfg) (fetch : String → Option PageData)
    (slug cat url : String) (rest seen : List String) (count : Nat)
    (hmax : ¬ cfg.maxPerCategory ≤ count) (hseen : url ∉ seen)
    (hslug : ¬ (slug ≠ "" ∧ ¬ pyStartsWith (pyReplace url BASE_URL "") ("/" ++ slug ++ "/")))
    (hf : fetchOutcome cfg fetch cat url = none) :
    processLinks cfg fetch slug cat (url :: rest) seen count
      = ⟨(processLinks cfg fetch slug cat rest seen count).rows,
         (processLinks cfg fetch slug cat rest seen count).seen,
         url :: (processLinks cfg fetch slug cat rest seen count).fetched⟩ := by
  simp only [processLinks]
  rw [if_neg hmax, if_neg hseen, if_neg hslug, hf]

/-- Unfolding equation: the article was navigated to and emitted. -/
theorem processLinks_cons_emit (cfg : ScrapeCfg) (fetch : String → Option PageData)
    (slug cat url : String) (rest seen : List String) (count : Nat) (row : Row)
    (hmax : ¬ cfg.maxPerCategory ≤ count) (hseen : url ∉ seen)
    (hslug : ¬ (slug ≠ "" ∧ ¬ pyStartsWith (pyReplace url BASE_URL "") ("/" ++ slug ++ "/")))
    (hf : fetchOutcome cfg fetch cat url = some row) :
    processLinks cfg fetch slug cat (url :: rest) seen count
      = ⟨row :: (processLinks cfg fetch slug cat rest (url :: seen) (count + 1)).rows,
         (processLinks cfg fetch slug cat rest (url :: seen) (count + 1)).seen,
         url :: (processLinks cfg fetch slug cat rest (url :: seen) (count + 1)).fetched⟩ := by
  simp only [processLinks]
  rw [if_neg hmax, if_neg hseen, if_neg hslug, hf]

/-- Invariants of the inner article loop: the seen-set afterwards is exactly
the emitted URLs (in reverse emission order) on top of the initial seen-set;
no emitted URL was already seen; emitted URLs are pairwise distinct; every
emitted row passed the cutoff filter with a resolved timestamp; and URLs that
were already seen are never navigated to. -/
theorem processLinks_spec (cfg : ScrapeCfg) (fetch : String → Option PageData)
    (slug cat : String) :
    ∀ (links seen : List String) (count : Nat),
      (processLinks cfg fetch slug cat links seen count).seen
        = ((processLinks cfg fetch slug cat links seen count).rows.map Row.url).reverse ++ seen
      ∧ (∀ r ∈ (processLinks cfg fetch slug cat links seen count).rows, r.url ∉ seen)
      ∧ ((processLinks cfg fetch slug cat links seen count).rows.map Row.url).Nodup
      ∧ (∀ r ∈ (processLinks cfg fetch slug cat links seen count).rows,
            cfg.cutoff ≤ r.published ∧
            ∃ pd, fetch r.url = some pd ∧ pd.publishedAt = some r.published)
      ∧ (∀ u ∈ seen, u ∉ (processLinks cfg fetch slug cat links seen count).fetched) := by
  intro links
  induction links with
  | nil => intro seen count; simp [processLinks]
  | cons url rest ih =>
    intro seen count
    by_cases hmax : cfg.maxPerCategory ≤ count
    · rw [processLinks_cons_stop cfg fetch slug cat url rest seen count hmax]
      simp
    · by_cases hseen : url ∈ seen
      · rw [processLinks_cons_seen cfg fetch slug cat url rest seen count hmax hseen]
        exact ih seen count
      · by_cases hslug : slug ≠ "" ∧ ¬ pyStartsWith (pyReplace url BASE_URL "") ("/" ++ slug ++ "/")
        · rw [processLinks_cons_slug cfg fetch slug cat url rest seen count hmax hseen hslug]
          exact ih seen count
        · cases hf : fetchOutcome cfg fetch cat url with
          | none =>
            obtain ⟨h1, h2, h3, h4, h5⟩ := ih seen count
            rw [processLinks_cons_drop cfg fetch slug cat url rest seen count hmax hseen hslug hf]
            refine ⟨h1, h2, h3, h4, ?_⟩
            intro u hu
            simp only [List.mem_cons, not_or]
            exact ⟨fun hcontra => hseen (hcontra ▸ hu), h5 u hu⟩
          | some row =>
            obtain ⟨hurl, hcut, hlen, hpd⟩ := fetchOutcome_spec cfg fetch cat url row hf
            obtain ⟨h1, h2, h3, h4, h5⟩ := ih (url :: seen) (count + 1)
            rw [processLinks_cons_emit cfg fetch slug cat url rest seen count row hmax hseen hslug hf]
            refine ⟨?_, ?_, ?_, ?_, ?_⟩
            · rw [h1, List.map_cons, hurl, List.reverse_cons, List.append_assoc]
              simp
            · intro r hr
              rcases List.mem_cons.mp hr with hr | hr
              · rw [hr, hurl]; exact hseen
              · exact fun hc => h2 r hr (List.mem_cons_of_mem _ hc)
            · rw [List.map_cons, hurl, List.nodup_cons]
              refine ⟨?_, h3⟩
              intro hc
              obtain ⟨r, hr, hru⟩ := List.mem_map.mp hc
              exact h2 r hr (hru ▸ List.mem_cons_self _ _)
            · intro r hr
              rcases List.mem_cons.mp hr with hr | hr
              · rw [hr]
                exact ⟨hcut, hurl ▸ hpd⟩
              · exact h4 r hr
            · intro u hu
              simp only [List.mem_cons, not_or]
              exact ⟨fun hcontra => hseen (hcontra ▸ hu),
                     h5 u (List.mem_cons_of_mem _ hu)⟩

/-- The inner-loop invariants lifted to the whole category loop, with the
seen-set threaded across categories. -/
theorem scrapeCats_spec (cfg : ScrapeCfg) (world : World) :
    ∀ (cats seen : List String),
      (scrapeCats cfg world cats seen).seen
        = ((scrapeCats cfg world cats seen).rows.map Row.url).reverse ++ seen
      ∧ (∀ r ∈ (scrapeCats cfg world cats seen).rows, r.url ∉ seen)
      ∧ ((scrapeCats cfg world cats seen).rows.map Row.url).Nodup
      ∧ (∀ r ∈ (scrapeCats cfg world cats seen).rows,
            cfg.cutoff ≤ r.published ∧
            ∃ pd, world.fetch r.url = some pd ∧ pd.publishedAt = some r.published)
      ∧ (∀ u ∈ seen, u ∉ (scrapeCats cfg world cats seen).fetched) := by
  intro cats
  induction cats with
  | nil => intro seen; simp [scrapeCats]
  | cons curl rest ih =>
    intro seen
    cases hc : world.catLinks curl with
    | none => simpa [scrapeCats, hc] using ih seen
    | some links =>
      obtain ⟨p1, p2, p3, p4, p5⟩ :=
        processLinks_spec cfg world.fetch (categorySlugFromUrl curl)
          (normalizeCategory (categorySlugFromUrl curl)) links seen 0
      obtain ⟨q1, q2, q3, q4, q5⟩ :=
        ih (processLinks cfg world.fetch (categorySlugFromUrl curl)
          (normalizeCategory (categorySlugFromUrl curl)) links seen 0).seen
      have heq : scrapeCats cfg world (curl :: rest) seen
          = ⟨(processLinks cfg world.fetch (categorySlugFromUrl curl)
                (normalizeCategory (categorySlugFromUrl curl)) links seen 0).rows
              ++ (scrapeCats cfg world rest
                   (processLinks cfg world.fetch (categorySlugFromUrl curl)
                     (normalizeCategory (categorySlugFromUrl curl)) links seen 0).seen).rows,
             (scrapeCats cfg world rest
               (processLinks cfg world.fetch (categorySlugFromUrl curl)
                 (normalizeCategory (categorySlugFromUrl curl)) links seen 0).seen).seen,
             (processLinks cfg world.fetch (categorySlugFromUrl curl)
               (normalizeCategory (categorySlugFromUrl curl)) links seen 0).fetched
              ++ (scrapeCats cfg world rest
                   (processLinks cfg world.fetch (categorySlugFromUrl curl)
                     (normalizeCategory (categorySlugFromUrl curl)) links seen 0).seen).fetched⟩ := by
        simp [scrapeCats, hc]
      set o1 := processLinks cfg world.fetch (categorySlugFromUrl curl)
        (normalizeCategory (categorySlugFromUrl curl)) links seen 0 with ho1
      set o2 := scrapeCats cfg world rest o1.seen with ho2
      rw [heq]
      have hsub : ∀ u ∈ seen, u ∈ o1.seen := by
        intro u hu; rw [p1]; exact List.mem_append_right _ hu
      have hmemrow : ∀ r ∈ o1.rows, r.url ∈ o1.seen := by
        intro r hr
        rw [p1]
        exact List.mem_append_left _ (List.mem_reverse.mpr (List.mem_map_of_mem _ hr))
      refine ⟨?_, ?_, ?_, ?_, ?_⟩
      · rw [q1, p1, List.map_append, List.reverse_append, List.append_assoc]
      · intro r hr
        rcases List.mem_append.mp hr with hr | hr
        · exact p2 r hr
        · exact fun hc2 => q2 r hr (hsub _ hc2)
      · rw [List.map_append, List.nodup_append]
        refine ⟨p3, q3, ?_⟩
        intro a ha hb
        obtain ⟨r, hr, hru⟩ := List.mem_map.mp ha
        obtain ⟨r2, hr2, hru2⟩ := List.mem_map.mp hb
        exact q2 r2 hr2 (hru2 ▸ hru ▸ hmemrow r hr)
      · intro r hr
        rcases List.mem_append.mp hr with hr | hr
        · exact p4 r hr
        · exact q4 r hr
      · intro u hu
        simp only [List.mem_append, not_or]
        exact ⟨p5 u hu, q5 u (hsub u hu)⟩

/-! ## Part 2: the `/embed` endpoint of `server.py` -/

/-- One row of the loaded article CSV (`ArticleRow` in `server.py`). -/
structure ArticleRow where
  source : String
  category : String
  url : String
  published_time : String
  content : String
deriving DecidableEq, Repr

/-- One entry of the append-only JSONL cache file: the object written by
`_append_cache` (`{key, model, dims, embedding, url}`).  Embedding components
are opaque payload values, modelled as integers. -/
structure CacheEntry where
  key : String
  model : String
  dims : Nat
  embedding : List Int
  url : Option String
deriving DecidableEq, Repr

/-- `_load_cache` followed by `cache.get(k)`: the file is read line by line
into a dict keyed on `key`, so for duplicate keys the LAST line wins. -/
def lookupCache (store : List CacheEntry) (k : String) : Option CacheEntry :=
  match store with
  | [] => none
  | e :: rest =>
    match lookupCache rest k with
    | some e' => some e'
    | none => if e.key = k then some e else none

/-- Python truthiness of an optional string (`None` and `""` are falsy). -/
def truthy (o : Option String) : Bool :=
  !(o.getD "" == "")

/-- Python `body.get("model") or embed_model`. -/
def pyOrDefault (o : Option String) (d : String) : String :=
  match o with
  | some m => if m = "" then d else m
  | none => d

/-- `_cache_key(url, model)` computes the sha256 hexdigest of `"{model}|{url}"`.
The digest is modelled by the preimage string itself; the server model below is
parametric in the digest function, and no claim depends on its concrete value
(only on it being a function of model and url). -/
def cacheKeyPre (url model : String) : String :=
  model ++ "|" ++ url

/-- The JSON body of a `POST /embed` request. -/
structure EmbedReq where
  url : Option String
  text : Option String
  model : Option String
  force : Bool
deriving DecidableEq, Repr

/-- The response of the `embed` handler: 400, 404, a propagated exception from
`ollama.embed` (non-2xx or malformed upstream response), or a JSON payload
`{cached, key, model, dims, embedding, url}`. -/
inductive EmbedResp where
  | badRequest
  | notFound (url : String)
  | upstreamError
  | ok (cached : Bool) (key : Option String) (model : String) (dims : Nat)
      (embedding : List Int) (url : Option String)
deriving DecidableEq, Repr

/-- Outcome of one `embed` request: the response, the cache file afterwards,
and how many calls were made to the embedding collaborator. -/
structure EmbedOutcome where
  resp : EmbedResp
  store : List CacheEntry
  calls : Nat
deriving DecidableEq, Repr

/-- The `embed` handler of `server.py`, parametric in the digest function
(`_cache_key`) and the embedding collaborator (`ollama.embed`; `none` models a
raised exception).  Resolve the text (missing text and url → 400; url not in
the article set → 404), consult the cache when a truthy url is present and
`force` is false, otherwise call the collaborator and append to the cache when
the key is truthy. -/
def embedServe (digest : String → String → String)
    (oracle : String → String → Option (List Int))
    (articles : List ArticleRow) (defaultModel : String)
    (store : List CacheEntry) (req : EmbedReq) : EmbedOutcome :=
  let url := req.url
  let model := pyOrDefault req.model defaultModel
  let textRes : Except EmbedResp String :=
    if ¬ truthy req.text then
      if ¬ truthy url then Except.error EmbedResp.badRequest
      else
        match articles.find? (fun r => r.url == url.getD "") with
        | none => Except.error (EmbedResp.notFound (url.getD ""))
        | some r => Except.ok r.content
    else Except.ok (req.text.getD "")
  match textRes with
  | Except.error e => ⟨e, store, 0⟩
  | Except.ok text =>
    let key : Option String :=
      if truthy url then some (digest (url.getD "") model) else none
    let hit : Option CacheEntry :=
      match key with
      | some k => if req.force then none else lookupCache store k
      | none => none
    match hit with
    | some e => ⟨EmbedResp.ok true (some e.key) e.model e.dims e.embedding e.url, store, 0⟩
    | none =>
      match oracle text model with
      | none => ⟨EmbedResp.upstreamError, store, 1⟩
      | some emb =>
        match key with
        | some k =>
          if k = "" then
            ⟨EmbedResp.ok false (some k) model emb.length emb url, store, 1⟩
          else
            ⟨EmbedResp.ok false (some k) model emb.length emb url,
              store ++ [⟨k, model, emb.length, emb, url⟩], 1⟩
        | none => ⟨EmbedResp.ok false none model emb.length emb url, store, 1⟩

/-! ## Server lemmas -/

/-- Appending one entry to the cache file: a later line with the same key
shadows earlier ones (dict overwrite in `_load_cache`). -/
theorem lookupCache_append (store : List CacheEntry) (e : CacheEntry) (k : String) :
    lookupCache (store ++ [e]) k = if e.key = k then some e else lookupCache store k := by
  induction store with
  | nil =>
    by_cases hek : e.key = k
    · simp [lookupCache, hek]
    · simp [lookupCache, hek]
  | cons a rest ih =>
    show (match lookupCache (rest ++ [e]) k with
          | some e' => some e'
          | none => if a.key = k then some a else none)
        = if e.key = k then some e else lookupCache (a :: rest) k
    rw [ih]
    by_cases hek : e.key = k
    · rw [if_pos hek, if_pos hek]
    · rw [if_neg hek, if_neg hek]
      rfl

theorem truthy_some (s : String) (h : s ≠ "") : truthy (some s) = true := by
  simp [truthy, h]

/-- The fresh-computation path of `embedServe`: truthy url and text, `force`
false, cache miss, collaborator succeeds.  One external call, the vector is
returned uncached and appended to the store under the digest key. -/
theorem embedServe_text_url_miss (digest : String → String → String)
    (oracle : String → String → Option (List Int))
    (articles : List ArticleRow) (dm : String) (store : List CacheEntry)
    (u t : String) (mo : Option String) (v : List Int)
    (hu : u ≠ "") (ht : t ≠ "")
    (hk : digest u (pyOrDefault mo dm) ≠ "")
    (hmiss : lookupCache store (digest u (pyOrDefault mo dm)) = none)
    (horacle : oracle t (pyOrDefault mo dm) = some v) :
    embedServe digest oracle articles dm store ⟨some u, some t, mo, false⟩
      = ⟨EmbedResp.ok false (some (digest u (pyOrDefault mo dm))) (pyOrDefault mo dm)
           v.length v (some u),
         store ++ [⟨digest u (pyOrDefault mo dm), pyOrDefault mo dm, v.length, v, some u⟩],
         1⟩ := by
  unfold embedServe
  simp [truthy, hu, ht, hk, hmiss, horacle]

/-- The cache-hit path of `embedServe`: truthy url and text, `force` false,
key present in the store.  No external call, the stored entry is returned. -/
theorem embedServe_text_url_hit (digest : String → String → String)
    (oracle : String → String → Option (List Int))
    (articles : List ArticleRow) (dm : String) (store : List CacheEntry)
    (u t : String) (mo : Option String) (e : CacheEntry)
    (hu : u ≠ "") (ht : t ≠ "")
    (hhit : lookupCache store (digest u (pyOrDefault mo dm)) = some e) :
    embedServe digest oracle articles dm store ⟨some u, some t, mo, false⟩
      = ⟨EmbedResp.ok true (some e.key) e.model e.dims e.embedding e.url, store, 0⟩ := by
  unfold embedServe
  simp [truthy, hu, ht, hhit]

/-- The failing forced-recompute path of `embedServe`: truthy url and text,
`force` true, collaborator fails.  The error propagates and the store is
untouched. -/
theorem embedServe_force_fail (digest : String → String → String)
    (oracle : String → String → Option (List Int))
    (articles : List ArticleRow) (dm : String) (store : List CacheEntry)
    (u t : String) (mo : Option String)
    (hu : u ≠ "") (ht : t ≠ "")
    (hfail : oracle t (pyOrDefault mo dm) = none) :
    embedServe digest oracle articles dm store ⟨some u, some t, mo, true⟩
      = ⟨EmbedResp.upstreamError, store, 1⟩ := by
  unfold embedServe
  simp [truthy, hu, ht, hfail]

/-! ## Claim theorems: pipeline -/

/-- C2: for every pipeline run, no URL appears twice among the emitted
records; the seen-set is global across categories, so this holds even when the
same URL is discovered under two different categories. -/
theorem scrape_no_duplicate_urls (cfg : ScrapeCfg) (world : World)
    (discovered allowed : List String) :
    ((scrape cfg world discovered allowed).rows.map Row.url).Nodup :=
  (scrapeCats_spec cfg world
    (if discovered.isEmpty then fallback_categories allowed else discovered) []).2.2.1

/-- C3: every record emitted by a run satisfies `publishedAt >= cutoff` where
`cutoff = now - window`, and its timestamp was resolved from the fetched page
(a record with an unresolvable timestamp never appears). -/
theorem scrape_window_correct (now : Int) (wh wd : Option Nat) (mp mc : Nat)
    (world : World) (discovered allowed : List String) :
    ∀ r ∈ (scrapeRun now wh wd mp mc world discovered allowed).rows,
      computeCutoff now wh wd ≤ r.published ∧
      ∃ pd, world.fetch r.url = some pd ∧ pd.publishedAt = some r.published := by
  intro r hr
  exact (scrapeCats_spec ⟨computeCutoff now wh wd, mp, mc⟩ world
    (if discovered.isEmpty then fallback_categories allowed else discovered) []).2.2.2.1 r hr

/-- A small concrete world with one category and one in-window article. -/
def demoCat : String := BASE_URL ++ "/india"

def demoUrl : String := BASE_URL ++ "/india/articleshow/7.cms"

def demoWorld : World :=
  ⟨fun c => if c = demoCat then some [demoUrl] else none,
   fun u => if u = demoUrl then some ⟨some 400000, "abcdef"⟩ else none⟩

def demoRow : Row := ⟨"timesofindia", "politics", demoUrl, 400000, "abcdef"⟩

theorem scrape_window_correct_witness :
    computeCutoff 1000000 none (some 7) ≤ demoRow.published ∧
    ∃ pd, demoWorld.fetch demoRow.url = some pd ∧ pd.publishedAt = some demoRow.published :=
  scrape_window_correct 1000000 none (some 7) 200 3 demoWorld [demoCat] [] demoRow (by decide)

/-- Two category URLs with the same slug (`/world` and `/World` both lower to
`world`) whose pages list the same article; the article's publish time is
unresolvable, so it is filtered out. -/
def refetchCatA : String := BASE_URL ++ "/world"

def refetchCatB : String := BASE_URL ++ "/World"

def refetchUrl : String := BASE_URL ++ "/world/articleshow/9.cms"

def refetchWorld : World :=
  ⟨fun c => if c = refetchCatA ∨ c = refetchCatB then some [refetchUrl] else none,
   fun u => if u = refetchUrl then some ⟨none, ""⟩ else none⟩

/-- C5 counterexample: the code marks a URL as seen only after a record is
written, not on every emission attempt.  Here the article is fetched from the
first category, filtered out (unresolvable timestamp), left unmarked, and
fetched a second time from the second category; the seen-set stays empty. -/
theorem scrape_refetches_filtered_url :
    (scrape ⟨0, 200, 0⟩ refetchWorld [refetchCatA, refetchCatB] []).fetched.count refetchUrl = 2
    ∧ (scrape ⟨0, 200, 0⟩ refetchWorld [refetchCatA, refetchCatB] []).seen = [] := by
  decide

/-- C5 (amended): a URL is marked as seen only when its record is emitted —
afterwards the seen-set is exactly the emitted URLs (in reverse emission
order) on top of the initial seen-set — and a URL already in the seen-set is
never fetched again; a URL whose fetch was filtered out is not marked and may
be fetched again later in the run. -/
theorem scrape_seen_iff_emitted (cfg : ScrapeCfg) (world : World)
    (cats seen : List String) :
    (scrapeCats cfg world cats seen).seen
      = ((scrapeCats cfg world cats seen).rows.map Row.url).reverse ++ seen
    ∧ ∀ u ∈ seen, u ∉ (scrapeCats cfg world cats seen).fetched := by
  obtain ⟨h1, _, _, _, h5⟩ := scrapeCats_spec cfg world cats seen
  exact ⟨h1, h5⟩

theorem scrape_seen_iff_emitted_witness :
    (scrapeCats ⟨0, 200, 0⟩ refetchWorld [refetchCatA] ["w"]).seen
      = ((scrapeCats ⟨0, 200, 0⟩ refetchWorld [refetchCatA] ["w"]).rows.map Row.url).reverse
          ++ ["w"]
    ∧ "w" ∉ (scrapeCats ⟨0, 200, 0⟩ refetchWorld [refetchCatA] ["w"]).fetched :=
  ⟨(scrape_seen_iff_emitted ⟨0, 200, 0⟩ refetchWorld [refetchCatA] ["w"]).1,
   (scrape_seen_iff_emitted ⟨0, 200, 0⟩ refetchWorld [refetchCatA] ["w"]).2 "w" (by decide)⟩

/-- The C7 scenario world: one category yielding three article URLs; two in
window, one outside; of the two in-window ones, one has body length 400. -/
def c7cat : String := BASE_URL ++ "/india"

def c7url1 : String := BASE_URL ++ "/india/articleshow/1.cms"

def c7url2 : String := BASE_URL ++ "/india/articleshow/2.cms"

def c7url3 : String := BASE_URL ++ "/india/articleshow/3.cms"

def c7world : World :=
  ⟨fun c => if c = c7cat then some [c7url1, c7url2, c7url3] else none,
   fun u =>
     if u = c7url1 then some ⟨some 400000, String.mk (List.replicate 600 'a')⟩
     else if u = c7url2 then some ⟨some 410000, String.mk (List.replicate 400 'a')⟩
     else if u = c7url3 then some ⟨some 300000, String.mk (List.replicate 600 'a')⟩
     else none⟩

set_option maxRecDepth 100000 in
/-- C7: with a 7-day window (`now = 1000000`, cutoff `395200`), three
discovered article URLs of which two are in-window (timestamps 400000 and
410000) and one outside (300000), a length threshold of 500 and one in-window
body of length 400, exactly one record is written, for the length-600
in-window article. -/
theorem scrape_three_links_scenario :
    (scrapeRun 1000000 none (some 7) 200 500 c7world [c7cat] []).rows.map Row.url = [c7url1]
    ∧ (scrapeRun 1000000 none (some 7) 200 500 c7world [c7cat] []).rows.length = 1 := by
  decide

theorem length_insertSorted (s : String) (l : List String) :
    (insertSorted s l).length = l.length + 1 := by
  induction l with
  | nil => rfl
  | cons t ts ih =>
    simp only [insertSorted]
    split
    · simp [ih]
    · simp

theorem length_sortStrings (l : List String) : (sortStrings l).length = l.length := by
  induction l with
  | nil => rfl
  | cons s ss ih =>
    simp only [sortStrings]
    rw [length_insertSorted, ih, List.length_cons]

theorem fallback_nonempty (allowed : List String) : fallback_categories allowed ≠ [] := by
  simp only [fallback_categories]
  intro hc
  have hnil := List.map_eq_nil_iff.mp hc
  by_cases ha : allowed.dedup.isEmpty
  · rw [if_pos ha] at hnil
    have hlen := length_sortStrings DEFAULT_VALID_CATEGORIES.dedup
    rw [hnil] at hlen
    have h0 : DEFAULT_VALID_CATEGORIES.dedup = [] := List.length_eq_zero.mp hlen.symm
    have h1 : DEFAULT_VALID_CATEGORIES = [] := (List.dedup_eq_nil _).mp h0
    simp [DEFAULT_VALID_CATEGORIES] at h1
  · rw [if_neg ha] at hnil
    have hlen := length_sortStrings allowed.dedup
    rw [hnil] at hlen
    have h0 : allowed.dedup = [] := List.length_eq_zero.mp hlen.symm
    rw [h0] at ha
    simp at ha

/-- A world with no reachable pages, for witnesses. -/
def emptyWorld : World := ⟨fun _ => none, fun _ => none⟩

/-- C9: when category discovery yields zero results the pipeline runs on
`fallback_categories allowed`; for any fixed allowed-set this list is
deterministic (equal inputs give equal lists) and never empty. -/
theorem fallback_deterministic_nonempty (allowed allowed' : List String)
    (h : allowed = allowed') :
    fallback_categories allowed ≠ []
    ∧ fallback_categories allowed = fallback_categories allowed'
    ∧ ∀ (cfg : ScrapeCfg) (world : World),
        scrape cfg world [] allowed = scrapeCats cfg world (fallback_categories allowed) [] := by
  subst h
  exact ⟨fallback_nonempty allowed, rfl, fun cfg world => rfl⟩

theorem fallback_deterministic_nonempty_witness :
    fallback_categories ["world"] ≠ []
    ∧ fallback_categories ["world"] = fallback_categories ["world"]
    ∧ scrape ⟨0, 200, 0⟩ emptyWorld [] ["world"]
        = scrapeCats ⟨0, 200, 0⟩ emptyWorld (fallback_categories ["world"]) [] :=
  ⟨(fallback_deterministic_nonempty ["world"] ["world"] rfl).1,
   (fallback_deterministic_nonempty ["world"] ["world"] rfl).2.1,
   (fallback_deterministic_nonempty ["world"] ["world"] rfl).2.2 ⟨0, 200, 0⟩ emptyWorld⟩

/-! ## Claim theorems: embedding cache -/

/-- C1: two `/embed` requests with the same truthy url, same text, same model
and `force` false, starting from a store without the key: the first call makes
one collaborator call and appends the vector under `digest(model, url)`; the
second call is a pure cache hit — zero collaborator calls, the store is
unchanged, and the returned vector is identical to the first one. -/
theorem embed_cache_idempotent (digest : String → String → String)
    (oracle : String → String → Option (List Int))
    (articles : List ArticleRow) (dm : String) (store : List CacheEntry)
    (u t : String) (mo : Option String) (v : List Int)
    (hu : u ≠ "") (ht : t ≠ "")
    (hk : digest u (pyOrDefault mo dm) ≠ "")
    (hmiss : lookupCache store (digest u (pyOrDefault mo dm)) = none)
    (horacle : oracle t (pyOrDefault mo dm) = some v) :
    (embedServe digest oracle articles dm store ⟨some u, some t, mo, false⟩).calls = 1
    ∧ (embedServe digest oracle articles dm store ⟨some u, some t, mo, false⟩).resp
        = EmbedResp.ok false (some (digest u (pyOrDefault mo dm))) (pyOrDefault mo dm)
            v.length v (some u)
    ∧ (embedServe digest oracle articles dm
        (embedServe digest oracle articles dm store ⟨some u, some t, mo, false⟩).store
        ⟨some u, some t, mo, false⟩).calls = 0
    ∧ (embedServe digest oracle articles dm
        (embedServe digest oracle articles dm store ⟨some u, some t, mo, false⟩).store
        ⟨some u, some t, mo, false⟩).resp
        = EmbedResp.ok true (some (digest u (pyOrDefault mo dm))) (pyOrDefault mo dm)
            v.length v (some u)
    ∧ (embedServe digest oracle articles dm
        (embedServe digest oracle articles dm store ⟨some u, some t, mo, false⟩).store
        ⟨some u, some t, mo, false⟩).store
        = (embedServe digest oracle articles dm store ⟨some u, some t, mo, false⟩).store := by
  have h1 := embedServe_text_url_miss digest oracle articles dm store u t mo v hu ht hk hmiss horacle
  have hhit2 : lookupCache
      (store ++ [⟨digest u (pyOrDefault mo dm), pyOrDefault mo dm, v.length, v, some u⟩])
      (digest u (pyOrDefault mo dm))
      = some ⟨digest u (pyOrDefault mo dm), pyOrDefault mo dm, v.length, v, some u⟩ := by
    rw [lookupCache_append]
    exact if_pos rfl
  have h2 := embedServe_text_url_hit digest oracle articles dm
    (store ++ [⟨digest u (pyOrDefault mo dm), pyOrDefault mo dm, v.length, v, some u⟩])
    u t mo ⟨digest u (pyOrDefault mo dm), pyOrDefault mo dm, v.length, v, some u⟩ hu ht hhit2
  refine ⟨?_, ?_, ?_, ?_, ?_⟩ <;> simp [h1, h2]

def constOracle : String → String → Option (List Int) := fun _ _ => some [1, 2]

def failOracle : String → String → Option (List Int) := fun _ _ => none

theorem embed_cache_idempotent_witness :
    (embedServe cacheKeyPre constOracle [] "m" []
        ⟨some "http://x/a", some "hello", none, false⟩).calls = 1
    ∧ (embedServe cacheKeyPre constOracle [] "m" []
        ⟨some "http://x/a", some "hello", none, false⟩).resp
        = EmbedResp.ok false (some "m|http://x/a") "m" 2 [1, 2] (some "http://x/a")
    ∧ (embedServe cacheKeyPre constOracle [] "m"
        (embedServe cacheKeyPre constOracle [] "m" []
          ⟨some "http://x/a", some "hello", none, false⟩).store
        ⟨some "http://x/a", some "hello", none, false⟩).calls = 0
    ∧ (embedServe cacheKeyPre constOracle [] "m"
        (embedServe cacheKeyPre constOracle [] "m" []
          ⟨some "http://x/a", some "hello", none, false⟩).store
        ⟨some "http://x/a", some "hello", none, false⟩).resp
        = EmbedResp.ok true (some "m|http://x/a") "m" 2 [1, 2] (some "http://x/a")
    ∧ (embedServe cacheKeyPre constOracle [] "m"
        (embedServe cacheKeyPre constOracle [] "m" []
          ⟨some "http://x/a", some "hello", none, false⟩).store
        ⟨some "http://x/a", some "hello", none, false⟩).store
        = (embedServe cacheKeyPre constOracle [] "m" []
            ⟨some "http://x/a", some "hello", none, false⟩).store :=
  embed_cache_idempotent cacheKeyPre constOracle [] "m" [] "http://x/a" "hello" none [1, 2]
    (by decide) (by decide) (by decide) rfl rfl

/-- C4: a forced recompute (`force` true) for a key that already has a stored
vector fails at the collaborator: the error is surfaced, nothing is written to
the store, and a subsequent non-forced lookup still returns the previous
(pre-force) stored entry — a cache hit, not an error and not an empty value. -/
theorem embed_force_failure_durable (digest : String → String → String)
    (oracle : String → String → Option (List Int))
    (articles : List ArticleRow) (dm : String) (store : List CacheEntry)
    (u t : String) (mo : Option String) (e : CacheEntry)
    (hu : u ≠ "") (ht : t ≠ "")
    (hhit : lookupCache store (digest u (pyOrDefault mo dm)) = some e)
    (hfail : oracle t (pyOrDefault mo dm) = none) :
    (embedServe digest oracle articles dm store ⟨some u, some t, mo, true⟩).resp
      = EmbedResp.upstreamError
    ∧ (embedServe digest oracle articles dm store ⟨some u, some t, mo, true⟩).store = store
    ∧ (embedServe digest oracle articles dm store ⟨some u, some t, mo, true⟩).calls = 1
    ∧ (embedServe digest oracle articles dm
        (embedServe digest oracle articles dm store ⟨some u, some t, mo, true⟩).store
        ⟨some u, some t, mo, false⟩).resp
        = EmbedResp.ok true (some e.key) e.model e.dims e.embedding e.url
    ∧ (embedServe digest oracle articles dm
        (embedServe digest oracle articles dm store ⟨some u, some t, mo, true⟩).store
        ⟨some u, some t, mo, false⟩).calls = 0 := by
  have h1 := embedServe_force_fail digest oracle articles dm store u t mo hu ht hfail
  have h2 := embedServe_text_url_hit digest oracle articles dm store u t mo e hu ht hhit
  refine ⟨?_, ?_, ?_, ?_, ?_⟩ <;> simp [h1, h2]

def demoEntry : CacheEntry := ⟨"m|http://x/a", "m", 2, [5, 6], some "http://x/a"⟩

theorem embed_force_failure_durable_witness :
    (embedServe cacheKeyPre failOracle [] "m" [demoEntry]
        ⟨some "http://x/a", some "hello", none, true⟩).resp = EmbedResp.upstreamError
    ∧ (embedServe cacheKeyPre failOracle [] "m" [demoEntry]
        ⟨some "http://x/a", some "hello", none, true⟩).store = [demoEntry]
    ∧ (embedServe cacheKeyPre failOracle [] "m" [demoEntry]
        ⟨some "http://x/a", some "hello", none, true⟩).calls = 1
    ∧ (embedServe cacheKeyPre failOracle [] "m"
        (embedServe cacheKeyPre failOracle [] "m" [demoEntry]
          ⟨some "http://x/a", some "hello", none, true⟩).store
        ⟨some "http://x/a", some "hello", none, false⟩).resp
        = EmbedResp.ok true (some "m|http://x/a") "m" 2 [5, 6] (some "http://x/a")
    ∧ (embedServe cacheKeyPre failOracle [] "m"
        (embedServe cacheKeyPre failOracle [] "m" [demoEntry]
          ⟨some "http://x/a", some "hello", none, true⟩).store
        ⟨some "http://x/a", some "hello", none, false⟩).calls = 0 :=
  embed_force_failure_durable cacheKeyPre failOracle [] "m" [demoEntry]
    "http://x/a" "hello" none demoEntry (by decide) (by decide) (by decide) rfl

/-- C6: a request with only ad-hoc text (no truthy url) never consults nor
populates the cache: the store is unchanged, the collaborator is called
exactly once whatever it returns, and on success the response is uncached
(`cached = false`, `key = null`) with the computed vector. -/
theorem embed_adhoc_text_uncached (digest : String → String → String)
    (oracle : String → String → Option (List Int))
    (articles : List ArticleRow) (dm : String) (store : List CacheEntry)
    (req : EmbedReq) (v : List Int)
    (hu : truthy req.url = false) (ht : truthy req.text = true) :
    (embedServe digest oracle articles dm store req).store = store
    ∧ (embedServe digest oracle articles dm store req).calls = 1
    ∧ (oracle (req.text.getD "") (pyOrDefault req.model dm) = some v →
        (embedServe digest oracle articles dm store req).resp
          = EmbedResp.ok false none (pyOrDefault req.model dm) v.length v req.url) := by
  cases ho : oracle (req.text.getD "") (pyOrDefault req.model dm) with
  | none =>
    refine ⟨?_, ?_, ?_⟩
    · unfold embedServe; simp [ht, hu, ho]
    · unfold embedServe; simp [ht, hu, ho]
    · intro hv; cases hv
  | some emb =>
    refine ⟨?_, ?_, ?_⟩
    · unfold embedServe; simp [ht, hu, ho]
    · unfold embedServe; simp [ht, hu, ho]
    · intro hv
      cases hv
      unfold embedServe
      simp [ht, hu, ho]

theorem embed_adhoc_text_uncached_witness :
    (embedServe cacheKeyPre constOracle [] "m" [] ⟨none, some "hello", none, false⟩).store = []
    ∧ (embedServe cacheKeyPre constOracle [] "m" [] ⟨none, some "hello", none, false⟩).calls = 1
    ∧ (embedServe cacheKeyPre constOracle [] "m" [] ⟨none, some "hello", none, false⟩).resp
        = EmbedResp.ok false none "m" 2 [1, 2] none :=
  ⟨(embed_adhoc_text_uncached cacheKeyPre constOracle [] "m" []
      ⟨none, some "hello", none, false⟩ [1, 2] (by decide) (by decide)).1,
   (embed_adhoc_text_uncached cacheKeyPre constOracle [] "m" []
      ⟨none, some "hello", none, false⟩ [1, 2] (by decide) (by decide)).2.1,
   (embed_adhoc_text_uncached cacheKeyPre constOracle [] "m" []
      ⟨none, some "hello", none, false⟩ [1, 2] (by decide) (by decide)).2.2 rfl⟩

/-- C8: no truthy text and no truthy url → 400; truthy url, no truthy text and
the url absent from the loaded article set → 404; in both cases no
collaborator call is made and no cache entry is written. -/
theorem embed_missing_input_errors (digest : String → String → String)
    (oracle : String → String → Option (List Int))
    (articles : List ArticleRow) (dm : String) (store : List CacheEntry)
    (req : EmbedReq) :
    (truthy req.text = false → truthy req.url = false →
      embedServe digest oracle articles dm store req = ⟨EmbedResp.badRequest, store, 0⟩)
    ∧ (truthy req.text = false → truthy req.url = true →
        (∀ r ∈ articles, r.url ≠ req.url.getD "") →
        embedServe digest oracle articles dm store req
          = ⟨EmbedResp.notFound (req.url.getD ""), store, 0⟩) := by
  constructor
  · intro ht hu
    unfold embedServe
    simp [ht, hu]
  · intro ht hu hnone
    have hfind : articles.find? (fun r => r.url == req.url.getD "") = none := by
      rw [List.find?_eq_none]
      intro r hr
      simp [hnone r hr]
    unfold embedServe
    simp [ht, hu, hfind]

def otherArticle : ArticleRow := ⟨"s", "c", "http://other", "", "body"⟩

theorem embed_missing_input_errors_witness :
    embedServe cacheKeyPre constOracle [otherArticle] "m" [] ⟨none, none, none, false⟩
      = ⟨EmbedResp.badRequest, [], 0⟩
    ∧ embedServe cacheKeyPre constOracle [otherArticle] "m" []
        ⟨some "http://x/a", none, none, false⟩
      = ⟨EmbedResp.notFound "http://x/a", [], 0⟩ :=
  ⟨(embed_missing_input_errors cacheKeyPre constOracle [otherArticle] "m" []
      ⟨none, none, none, false⟩).1 (by decide) (by decide),
   (embed_missing_input_errors cacheKeyPre constOracle [otherArticle] "m" []
      ⟨some "http://x/a", none, none, false⟩).2 (by decide) (by decide) (by decide)⟩

/-- C10: a request with both a non-empty text and a truthy url is not
rejected; on a cache miss the supplied text (not the article content) is what
the collaborator embeds, the vector is cached under `digest(model, url)`, and
the loaded article set is irrelevant to the outcome. -/
theorem embed_both_text_and_url (digest : String → String → String)
    (oracle : String → String → Option (List Int))
    (articles articles2 : List ArticleRow) (dm : String) (store : List CacheEntry)
    (u t : String) (mo : Option String) (v : List Int)
    (hu : u ≠ "") (ht : t ≠ "")
    (hk : digest u (pyOrDefault mo dm) ≠ "")
    (hmiss : lookupCache store (digest u (pyOrDefault mo dm)) = none)
    (horacle : oracle t (pyOrDefault mo dm) = some v) :
    embedServe digest oracle articles dm store ⟨some u, some t, mo, false⟩
      = ⟨EmbedResp.ok false (some (digest u (pyOrDefault mo dm))) (pyOrDefault mo dm)
           v.length v (some u),
         store ++ [⟨digest u (pyOrDefault mo dm), pyOrDefault mo dm, v.length, v, some u⟩],
         1⟩
    ∧ embedServe digest oracle articles2 dm store ⟨some u, some t, mo, false⟩
      = embedServe digest oracle articles dm store ⟨some u, some t, mo, false⟩ :=
  ⟨embedServe_text_url_miss digest oracle articles dm store u t mo v hu ht hk hmiss horacle,
   by rw [embedServe_text_url_miss digest oracle articles dm store u t mo v hu ht hk hmiss
        horacle,
      embedServe_text_url_miss digest oracle articles2 dm store u t mo v hu ht hk hmiss
        horacle]⟩

def matchingArticle : ArticleRow := ⟨"s", "c", "http://x/a", "", "ARTICLE BODY"⟩

theorem embed_both_text_and_url_witness :
    embedServe cacheKeyPre constOracle [matchingArticle] "m" []
        ⟨some "http://x/a", some "hello", none, false⟩
      = ⟨EmbedResp.ok false (some "m|http://x/a") "m" 2 [1, 2] (some "http://x/a"),
         [⟨"m|http://x/a", "m", 2, [1, 2], some "http://x/a"⟩], 1⟩
    ∧ embedServe cacheKeyPre constOracle [] "m" []
        ⟨some "http://x/a", some "hello", none, false⟩
      = embedServe cacheKeyPre constOracle [matchingArticle] "m" []
          ⟨some "http://x/a", some "hello", none, false⟩ :=
  embed_both_text_and_url cacheKeyPre constOracle [matchingArticle] [] "m" []
    "http://x/a" "hello" none [1, 2] (by decide) (by decide) (by decide) rfl rfl
